import Mathlib

/-!
Shallow embedding of the binary persistence protocol of `src/binary_conf.rs`
(the `binconf` crate): the record layout (16-byte xxh3_128 digest prepended to
a bincode payload), `prepare_serialized_data`, `get_hash_from_file_and_data`,
`store_bin`, and the `load_bin` / `load_bin_skip_check` state machine.

Modelling conventions:
- Bytes are `Nat`s, byte buffers are `List Nat`; the file at the resolved path
  is `Option (List Nat)` (`none` = no file exists).
- The xxh3_128 checksum is an abstract parameter `hash : List Nat → Nat`
  returning the u128 digest value; its on-disk form is the 16-byte
  little-endian encoding `u128ToLeBytes`.
- bincode serialization of the caller's type `T` is an abstract pair
  `ser : T → List Nat` and `deser : List Nat → Option T`
  (`bincode::serialize` / `bincode::deserialize_from`).
- Rust operations that can panic (out-of-bounds slicing, the digest-length
  assertion, `clone_from_slice`) are modelled in `Option`: `none` is a panic.
  Filesystem I/O errors are elided; `ConfigError` keeps only the variants the
  binary path can itself produce.
- Functions return both the call's result and the file content after the call,
  so that the on-disk effects of each branch are part of the model.
-/

namespace Binconf

/-- The `HASH_BYTE_LENGTH` constant of `binary_conf.rs`: width of the
xxh3_128 digest in bytes. -/
def HASH_BYTE_LENGTH : Nat := 16

/-- The error variants of `ConfigError` reachable from the binary path
(error payloads are elided). -/
inductive ConfigError
  | HashMismatch
  | CorruptedHashSector
  | Bincode
  deriving DecidableEq, Repr

/-- Little-endian byte decomposition: `k` bytes of `n`, least significant
first.  Models the first `k` bytes of an integer's `to_le_bytes()`. -/
def toLeBytesAux : Nat → Nat → List Nat
  | 0, _ => []
  | k + 1, n => n % 256 :: toLeBytesAux k (n / 256)

/-- The 16-byte little-endian encoding of a u128 value: models
`u128::to_le_bytes` applied to the xxh3_128 digest. -/
def u128ToLeBytes (n : Nat) : List Nat :=
  toLeBytesAux HASH_BYTE_LENGTH n

/-- Rust slice `&data[..n]`: `none` models the panic when `n` exceeds the
length. -/
def slice_to (data : List Nat) (n : Nat) : Option (List Nat) :=
  if n ≤ data.length then some (data.take n) else none

/-- Rust slice `&data[n..]`: `none` models the panic when `n` exceeds the
length. -/
def slice_from (data : List Nat) (n : Nat) : Option (List Nat) :=
  if n ≤ data.length then some (data.drop n) else none

/-- `get_hash_from_file_and_data` of `binary_conf.rs`: splits the stored
digest (`&data[..16]`) from the payload (`&data[16..]`), recomputes the
xxh3_128 digest of the payload, and asserts the digest is 16 bytes long.
`none` models a panic (out-of-bounds slice or failed assert). -/
def get_hash_from_file_and_data (hash : List Nat → Nat) (data : List Nat) :
    Option (List Nat × List Nat) :=
  match slice_to data HASH_BYTE_LENGTH, slice_from data HASH_BYTE_LENGTH with
  | some binary_hash_from_file, some binary_data_without_hash =>
      let binary_hash_from_data := u128ToLeBytes (hash binary_data_without_hash)
      if binary_hash_from_data.length = HASH_BYTE_LENGTH then
        some (binary_hash_from_file, binary_hash_from_data)
      else none
  | _, _ => none

/-- `prepare_serialized_data` of `binary_conf.rs`, applied to an
already-serialized payload: builds `[0u8; 16] ++ payload`, computes the
xxh3_128 digest of the tail, and overwrites the 16-byte head with the digest
(`clone_from_slice`, which panics — `none` — if the digest is not 16 bytes). -/
def prepare_serialized_data (hash : List Nat → Nat) (payload : List Nat) :
    Option (List Nat) :=
  let full_data := List.replicate HASH_BYTE_LENGTH 0 ++ payload
  let h := u128ToLeBytes (hash (List.drop HASH_BYTE_LENGTH full_data))
  if h.length = HASH_BYTE_LENGTH then
    some (h ++ List.drop HASH_BYTE_LENGTH full_data)
  else none

variable {T : Type}

/-- `store_bin` of `binary_conf.rs`: serializes the value, frames it via
`prepare_serialized_data`, and truncate-writes the framed buffer.  The result
is the new file content (independent of any previous content, as
`File::create` truncates); `none` models a panic. -/
def store_bin (hash : List Nat → Nat) (ser : T → List Nat) (data : T) :
    Option (List Nat) :=
  prepare_serialized_data hash (ser data)

/-- The `save_default_conf` closure of `load_bin_internal`: frames the
serialized default value and truncate-writes it, returning the default and
the new file content. -/
def save_default_conf (hash : List Nat → Nat) (ser : T → List Nat)
    (default : T) : Option (T × List Nat) :=
  (prepare_serialized_data hash (ser default)).map
    (fun full_data => (default, full_data))

/-- The result of a `save_default_conf` call as seen by `load_bin_internal`:
`Ok(default)` together with the rewritten file. -/
def save_default_result (hash : List Nat → Nat) (ser : T → List Nat)
    (default : T) : Option (Except ConfigError T × Option (List Nat)) :=
  (save_default_conf hash ser default).map
    (fun r => (Except.ok r.1, some r.2))

/-- The deserialization step of `load_bin_internal` (lines 159-170): slice
off the 16-byte digest, `bincode::deserialize_from` the rest; on failure
either reset to the default config or return `ConfigError::Bincode`. -/
def bincode_step (hash : List Nat → Nat) (ser : T → List Nat)
    (deser : List Nat → Option T) (default : T)
    (reset_conf_on_err : Bool) (data : List Nat) :
    Option (Except ConfigError T × Option (List Nat)) :=
  match slice_from data HASH_BYTE_LENGTH with
  | none => none
  | some binary_data_without_hash =>
    match deser binary_data_without_hash with
    | some config => some (Except.ok config, some data)
    | none =>
      if reset_conf_on_err then
        save_default_result hash ser default
      else
        some (Except.error ConfigError.Bincode, some data)

/-- `load_bin_internal` of `binary_conf.rs`: bootstrap when the file is
absent, size check against `HASH_BYTE_LENGTH`, optional digest verification
via `get_hash_from_file_and_data`, then deserialization, with the
`reset_conf_on_err` recovery policy at each failure point.  Returns the
call's result together with the file content after the call; `none` models a
panic. -/
def load_bin_internal (hash : List Nat → Nat) (ser : T → List Nat)
    (deser : List Nat → Option T) (default : T)
    (reset_conf_on_err : Bool) (skip_hash_check : Bool)
    (file : Option (List Nat)) :
    Option (Except ConfigError T × Option (List Nat)) :=
  match file with
  | none => save_default_result hash ser default
  | some data =>
    if data.length < HASH_BYTE_LENGTH then
      if reset_conf_on_err then
        save_default_result hash ser default
      else
        some (Except.error ConfigError.CorruptedHashSector, some data)
    else
      if skip_hash_check = false then
        match get_hash_from_file_and_data hash data with
        | none => none
        | some (binary_hash_from_file, binary_hash_from_data) =>
          if binary_hash_from_file ≠ binary_hash_from_data then
            if reset_conf_on_err then
              save_default_result hash ser default
            else
              some (Except.error ConfigError.HashMismatch, some data)
          else
            bincode_step hash ser deser default reset_conf_on_err data
      else
        bincode_step hash ser deser default reset_conf_on_err data

/-- `load_bin` of `binary_conf.rs`: `load_bin_internal` with the hash check
enabled. -/
def load_bin (hash : List Nat → Nat) (ser : T → List Nat)
    (deser : List Nat → Option T) (default : T)
    (reset_conf_on_err : Bool) (file : Option (List Nat)) :
    Option (Except ConfigError T × Option (List Nat)) :=
  load_bin_internal hash ser deser default reset_conf_on_err false file

/-- `load_bin_skip_check` of `binary_conf.rs`: `load_bin_internal` with the
hash check skipped. -/
def load_bin_skip_check (hash : List Nat → Nat) (ser : T → List Nat)
    (deser : List Nat → Option T) (default : T)
    (reset_conf_on_err : Bool) (file : Option (List Nat)) :
    Option (Except ConfigError T × Option (List Nat)) :=
  load_bin_internal hash ser deser default reset_conf_on_err true file

/-- The well-formed on-disk record for a payload: 16-byte little-endian
digest followed by the payload. -/
def record (hash : List Nat → Nat) (payload : List Nat) : List Nat :=
  u128ToLeBytes (hash payload) ++ payload

/-! ### Supporting lemmas -/

theorem toLeBytesAux_length (k : Nat) : ∀ n, (toLeBytesAux k n).length = k := by
  induction k with
  | zero => intro n; rfl
  | succ k ih => intro n; simp [toLeBytesAux, ih]

theorem u128ToLeBytes_length (n : Nat) :
    (u128ToLeBytes n).length = HASH_BYTE_LENGTH :=
  toLeBytesAux_length HASH_BYTE_LENGTH n

theorem toLeBytesAux_injOn (k : Nat) :
    ∀ a b, a < 256 ^ k → b < 256 ^ k →
      toLeBytesAux k a = toLeBytesAux k b → a = b := by
  induction k with
  | zero => intro a b ha hb _; omega
  | succ k ih =>
    intro a b ha hb h
    simp only [toLeBytesAux, List.cons.injEq] at h
    have hdiv : a / 256 = b / 256 := by
      refine ih (a / 256) (b / 256) ?_ ?_ h.2
      · exact Nat.div_lt_of_lt_mul (by rw [pow_succ] at ha; omega)
      · exact Nat.div_lt_of_lt_mul (by rw [pow_succ] at hb; omega)
    omega

theorem u128ToLeBytes_injOn (a b : Nat) (ha : a < 2 ^ 128) (hb : b < 2 ^ 128)
    (h : u128ToLeBytes a = u128ToLeBytes b) : a = b := by
  have h256 : (256 : Nat) ^ 16 = 2 ^ 128 := by norm_num
  exact toLeBytesAux_injOn 16 a b (h256 ▸ ha) (h256 ▸ hb) h

theorem record_length (hash : List Nat → Nat) (payload : List Nat) :
    (record hash payload).length = HASH_BYTE_LENGTH + payload.length := by
  simp [record, u128ToLeBytes_length]

theorem record_take (hash : List Nat → Nat) (payload : List Nat) :
    (record hash payload).take HASH_BYTE_LENGTH = u128ToLeBytes (hash payload) :=
  List.take_left' (u128ToLeBytes_length (hash payload))

theorem record_drop (hash : List Nat → Nat) (payload : List Nat) :
    (record hash payload).drop HASH_BYTE_LENGTH = payload :=
  List.drop_left' (u128ToLeBytes_length (hash payload))

theorem set_append_of_length_le (l₁ l₂ : List Nat) (n a : Nat)
    (h : l₁.length ≤ n) :
    (l₁ ++ l₂).set n a = l₁ ++ l₂.set (n - l₁.length) a := by
  simp [List.set_append, Nat.not_lt.mpr h]

/-- `prepare_serialized_data` never panics: it always produces the framed
record `digest ++ payload`. -/
theorem prepare_serialized_data_eq (hash : List Nat → Nat)
    (payload : List Nat) :
    prepare_serialized_data hash payload = some (record hash payload) := by
  have hdrop : List.drop HASH_BYTE_LENGTH
      (List.replicate HASH_BYTE_LENGTH (0 : Nat) ++ payload) = payload :=
    List.drop_left' (List.length_replicate HASH_BYTE_LENGTH 0)
  simp [prepare_serialized_data, hdrop, u128ToLeBytes_length, record]

/-- `get_hash_from_file_and_data` never panics once the size check has
passed: its slicings are in bounds and the digest-length assert holds. -/
theorem get_hash_from_file_and_data_eq (hash : List Nat → Nat)
    (data : List Nat) (hlen : HASH_BYTE_LENGTH ≤ data.length) :
    get_hash_from_file_and_data hash data =
      some (data.take HASH_BYTE_LENGTH,
            u128ToLeBytes (hash (data.drop HASH_BYTE_LENGTH))) := by
  simp [get_hash_from_file_and_data, slice_to, slice_from, hlen,
    u128ToLeBytes_length]

theorem save_default_result_eq (hash : List Nat → Nat) (ser : T → List Nat)
    (default : T) :
    save_default_result hash ser default =
      some (Except.ok default, some (record hash (ser default))) := by
  simp [save_default_result, save_default_conf, prepare_serialized_data_eq]

/-! ### Concrete instances used to evaluate the model on closed inputs -/

/-- A concrete stand-in checksum (little-endian value of the byte list),
used to run the model on closed inputs. -/
def testHash (l : List Nat) : Nat :=
  l.foldr (fun b acc => b + 256 * acc) 0

/-- A concrete one-byte serializer for `Nat`, used to run the model on
closed inputs. -/
def testSer (n : Nat) : List Nat := [n % 256]

/-- The matching concrete deserializer for `testSer`. -/
def testDeser (l : List Nat) : Option Nat := l.head?

/-! ### Claims -/

/-- Claim C1: for every value `v` of a serializable type `T` (deterministic
serialization, with deserialization inverting it on `v`), `store_bin`
followed by `load_bin` on the same path with no intervening writes succeeds
and returns a value equal to `v`, for either value of `reset_conf_on_err`. -/
theorem C1_store_then_load_round_trip (hash : List Nat → Nat)
    (ser : T → List Nat) (deser : List Nat → Option T) (default : T) (v : T)
    (reset_conf_on_err : Bool) (hdeser : deser (ser v) = some v) :
    store_bin hash ser v = some (record hash (ser v)) ∧
    load_bin hash ser deser default reset_conf_on_err
        (some (record hash (ser v))) =
      some (Except.ok v, some (record hash (ser v))) := by
  have hlen : HASH_BYTE_LENGTH ≤ (record hash (ser v)).length := by
    rw [record_length]; omega
  refine ⟨by simp [store_bin, prepare_serialized_data_eq], ?_⟩
  simp [load_bin, load_bin_internal, Nat.not_lt.mpr hlen,
    get_hash_from_file_and_data_eq hash _ hlen, record_take, record_drop,
    bincode_step, slice_from, hlen, hdeser]

/-- Witness for C1 at `v = 5` with the concrete test instances. -/
theorem C1_witness :
    store_bin testHash testSer 5 = some (record testHash (testSer 5)) ∧
    load_bin testHash testSer testDeser 0 false
        (some (record testHash (testSer 5))) =
      some (Except.ok 5, some (record testHash (testSer 5))) :=
  C1_store_then_load_round_trip testHash testSer testDeser 0 5 false (by decide)

/-- Claim C2: for a payload that is the serialization of a value,
`prepare_serialized_data` returns a buffer of length `16 + len(payload)`
whose first 16 bytes are the little-endian xxh3_128 digest of the payload
and whose tail is the payload unchanged, and `store_bin` writes exactly this
buffer as the new file content. -/
theorem C2_framed_record_layout (hash : List Nat → Nat) (ser : T → List Nat)
    (v : T) (payload : List Nat) (hser : ser v = payload) :
    prepare_serialized_data hash payload = some (record hash payload) ∧
    (record hash payload).length = HASH_BYTE_LENGTH + payload.length ∧
    (record hash payload).take HASH_BYTE_LENGTH =
      u128ToLeBytes (hash payload) ∧
    (record hash payload).drop HASH_BYTE_LENGTH = payload ∧
    store_bin hash ser v = some (record hash payload) := by
  refine ⟨prepare_serialized_data_eq hash payload, record_length hash payload,
    record_take hash payload, record_drop hash payload, ?_⟩
  simp [store_bin, hser, prepare_serialized_data_eq]

/-- Witness for C2 at `v = 5`, `payload = [5]` with the concrete test
instances. -/
theorem C2_witness :
    prepare_serialized_data testHash [5] = some (record testHash [5]) ∧
    (record testHash [5]).length = HASH_BYTE_LENGTH + ([5] : List Nat).length ∧
    (record testHash [5]).take HASH_BYTE_LENGTH = u128ToLeBytes (testHash [5]) ∧
    (record testHash [5]).drop HASH_BYTE_LENGTH = [5] ∧
    store_bin testHash testSer 5 = some (record testHash [5]) :=
  C2_framed_record_layout testHash testSer 5 [5] (by decide)

/-- Claim C3: flipping a single byte in the payload region (offset 16
onward) of a valid record makes `load_bin` with `reset_conf_on_err = false`
fail with `HashMismatch`, and makes `load_bin` with
`reset_conf_on_err = true` return the default while rewriting the file with
a freshly framed default record.  The digest hypotheses say that the
checksum is a u128 and that the flip changes it (the checksum contract:
collisions are excluded). -/
theorem C3_payload_byte_flip_detected (hash : List Nat → Nat)
    (ser : T → List Nat) (deser : List Nat → Option T) (default : T) (v : T)
    (i b : Nat) (hi : i < (ser v).length)
    (hflip : b ≠ (ser v).get ⟨i, hi⟩)
    (hb1 : hash ((ser v).set i b) < 2 ^ 128)
    (hb2 : hash (ser v) < 2 ^ 128)
    (hcoll : hash ((ser v).set i b) ≠ hash (ser v)) :
    load_bin hash ser deser default false
        (some ((record hash (ser v)).set (HASH_BYTE_LENGTH + i) b)) =
      some (Except.error ConfigError.HashMismatch,
            some ((record hash (ser v)).set (HASH_BYTE_LENGTH + i) b)) ∧
    load_bin hash ser deser default true
        (some ((record hash (ser v)).set (HASH_BYTE_LENGTH + i) b)) =
      some (Except.ok default, some (record hash (ser default))) := by
  have hset : (record hash (ser v)).set (HASH_BYTE_LENGTH + i) b =
      u128ToLeBytes (hash (ser v)) ++ (ser v).set i b := by
    rw [record, set_append_of_length_le _ _ _ _ (by rw [u128ToLeBytes_length]; omega),
      u128ToLeBytes_length]
    simp
  rw [hset]
  have hlen : HASH_BYTE_LENGTH ≤
      (u128ToLeBytes (hash (ser v)) ++ (ser v).set i b).length := by
    rw [List.length_append, u128ToLeBytes_length]; omega
  have htake : (u128ToLeBytes (hash (ser v)) ++ (ser v).set i b).take
      HASH_BYTE_LENGTH = u128ToLeBytes (hash (ser v)) :=
    List.take_left' (u128ToLeBytes_length _)
  have hdrop : (u128ToLeBytes (hash (ser v)) ++ (ser v).set i b).drop
      HASH_BYTE_LENGTH = (ser v).set i b :=
    List.drop_left' (u128ToLeBytes_length _)
  have hne : u128ToLeBytes (hash (ser v)) ≠
      u128ToLeBytes (hash ((ser v).set i b)) := by
    intro h
    exact hcoll (u128ToLeBytes_injOn _ _ hb1 hb2 h.symm)
  constructor
  · simp [load_bin, load_bin_internal, Nat.not_lt.mpr hlen,
      get_hash_from_file_and_data_eq _ _ hlen, htake, hdrop, hne]
    rw [u128ToLeBytes_length]; omega
  · simp [load_bin, load_bin_internal, Nat.not_lt.mpr hlen,
      get_hash_from_file_and_data_eq _ _ hlen, htake, hdrop, hne,
      save_default_result_eq]

/-- Witness for C3: the valid record for `v = 5`, payload byte 0 flipped
from `5` to `6`, with the concrete test instances. -/
theorem C3_witness :
    load_bin testHash testSer testDeser 0 false
        (some ((record testHash (testSer 5)).set (HASH_BYTE_LENGTH + 0) 6)) =
      some (Except.error ConfigError.HashMismatch,
            some ((record testHash (testSer 5)).set (HASH_BYTE_LENGTH + 0) 6)) ∧
    load_bin testHash testSer testDeser 0 true
        (some ((record testHash (testSer 5)).set (HASH_BYTE_LENGTH + 0) 6)) =
      some (Except.ok 0, some (record testHash (testSer 0))) :=
  C3_payload_byte_flip_detected testHash testSer testDeser 0 5 0 6
    (by decide) (by decide) (by norm_num [testHash, testSer])
    (by norm_num [testHash, testSer]) (by decide)

/-- Claim C4: whenever `load_bin` with `reset_conf_on_err = false` fails
with `HashMismatch` or with a bincode deserialization error, the file on
disk is left byte-for-byte unmodified. -/
theorem C4_error_leaves_file_untouched (hash : List Nat → Nat)
    (ser : T → List Nat) (deser : List Nat → Option T) (default : T)
    (data : List Nat) (e : ConfigError) (fs : Option (List Nat))
    (h : load_bin hash ser deser default false (some data) =
      some (Except.error e, fs))
    (he : e = ConfigError.HashMismatch ∨ e = ConfigError.Bincode) :
    fs = some data := by
  by_cases hlen : data.length < HASH_BYTE_LENGTH
  · simp [load_bin, load_bin_internal, hlen] at h
    exact h.2.symm
  · have hlen' : HASH_BYTE_LENGTH ≤ data.length := Nat.not_lt.mp hlen
    simp only [load_bin, load_bin_internal, if_neg hlen,
      get_hash_from_file_and_data_eq _ _ hlen'] at h
    by_cases hmis : data.take HASH_BYTE_LENGTH =
        u128ToLeBytes (hash (data.drop HASH_BYTE_LENGTH))
    · simp only [bincode_step, slice_from, if_pos hlen', hmis, ne_eq,
        not_true_eq_false, if_false, Bool.false_eq_true, ite_false] at h
      cases hd : deser (data.drop HASH_BYTE_LENGTH) with
      | some config => simp [hd] at h
      | none => simp [hd] at h; exact h.2.symm
    · simp [hmis] at h
      exact h.2.symm

/-- Witness for C4: a 16-byte all-ones file whose stored digest does not
match, loaded with the concrete test instances. -/
theorem C4_witness :
    load_bin testHash testSer testDeser 0 false
        (some (List.replicate 16 1)) =
      some (Except.error ConfigError.HashMismatch,
            some (List.replicate 16 1)) ∧
    (some (List.replicate 16 1) : Option (List Nat)) =
      some (List.replicate 16 1) :=
  ⟨by rfl,
    C4_error_leaves_file_untouched testHash testSer testDeser 0
      (List.replicate 16 1) ConfigError.HashMismatch
      (some (List.replicate 16 1)) (by rfl) (Or.inl rfl)⟩

/-- Claim C5: for every recoverable failure of `load_bin` — file shorter
than 16 bytes, stored digest differing from the recomputed digest of the
payload, or payload deserialization failure — with
`reset_conf_on_err = true` the call returns the default value and overwrites
the file with a freshly framed default record; the result does not depend on
the prior file content in any other way (no read-merge). -/
theorem C5_reset_replaces_with_default (hash : List Nat → Nat)
    (ser : T → List Nat) (deser : List Nat → Option T) (default : T)
    (data : List Nat)
    (hfail : data.length < HASH_BYTE_LENGTH ∨
      data.take HASH_BYTE_LENGTH ≠
        u128ToLeBytes (hash (data.drop HASH_BYTE_LENGTH)) ∨
      deser (data.drop HASH_BYTE_LENGTH) = none) :
    load_bin hash ser deser default true (some data) =
      some (Except.ok default, some (record hash (ser default))) := by
  by_cases hlen : data.length < HASH_BYTE_LENGTH
  · simp [load_bin, load_bin_internal, hlen, save_default_result_eq]
  · have hlen' : HASH_BYTE_LENGTH ≤ data.length := Nat.not_lt.mp hlen
    by_cases hmis : data.take HASH_BYTE_LENGTH =
        u128ToLeBytes (hash (data.drop HASH_BYTE_LENGTH))
    · have hdeser : deser (data.drop HASH_BYTE_LENGTH) = none := by
        rcases hfail with h | h | h
        · omega
        · exact absurd hmis h
        · exact h
      simp [load_bin, load_bin_internal, hlen,
        get_hash_from_file_and_data_eq _ _ hlen', hmis, bincode_step,
        slice_from, hlen', hdeser, save_default_result_eq]
    · simp [load_bin, load_bin_internal, hlen,
        get_hash_from_file_and_data_eq _ _ hlen', hmis,
        save_default_result_eq]

/-- Witness for C5: a 16-byte all-ones file (digest mismatch) loaded with
reset enabled under the concrete test instances. -/
theorem C5_witness :
    load_bin testHash testSer testDeser 0 true (some (List.replicate 16 1)) =
      some (Except.ok 0, some (record testHash (testSer 0))) :=
  C5_reset_replaces_with_default testHash testSer testDeser 0
    (List.replicate 16 1) (Or.inr (Or.inl (by decide)))

/-- Claim C6: a file strictly shorter than 16 bytes always fails with
`CorruptedHashSector` under `reset_conf_on_err = false` (whatever its
content) and is replaced by a framed default record under
`reset_conf_on_err = true`; a file of exactly 16 bytes (empty payload) is
not treated as short — its outcome is decided by digest verification and
then deserialization. -/
theorem C6_short_file_corrupted_hash_sector (hash : List Nat → Nat)
    (ser : T → List Nat) (deser : List Nat → Option T) (default : T)
    (data₁ data₂ : List Nat)
    (hshort : data₁.length < HASH_BYTE_LENGTH)
    (hexact : data₂.length = HASH_BYTE_LENGTH) :
    load_bin hash ser deser default false (some data₁) =
      some (Except.error ConfigError.CorruptedHashSector, some data₁) ∧
    load_bin hash ser deser default true (some data₁) =
      some (Except.ok default, some (record hash (ser default))) ∧
    load_bin hash ser deser default false (some data₂) =
      (if data₂.take HASH_BYTE_LENGTH =
          u128ToLeBytes (hash (data₂.drop HASH_BYTE_LENGTH)) then
        match deser (data₂.drop HASH_BYTE_LENGTH) with
        | some config => some (Except.ok config, some data₂)
        | none => some (Except.error ConfigError.Bincode, some data₂)
      else some (Except.error ConfigError.HashMismatch, some data₂)) := by
  have hlen₂ : HASH_BYTE_LENGTH ≤ data₂.length := hexact.ge
  refine ⟨by simp [load_bin, load_bin_internal, hshort], ?_, ?_⟩
  · simp [load_bin, load_bin_internal, hshort, save_default_result_eq]
  · by_cases hmis : data₂.take HASH_BYTE_LENGTH =
        u128ToLeBytes (hash (data₂.drop HASH_BYTE_LENGTH))
    · cases hdeser : deser (data₂.drop HASH_BYTE_LENGTH) <;>
        simp [load_bin, load_bin_internal, Nat.not_lt.mpr hlen₂,
          get_hash_from_file_and_data_eq _ _ hlen₂, hmis, bincode_step,
          slice_from, hlen₂, hdeser]
    · simp [load_bin, load_bin_internal, Nat.not_lt.mpr hlen₂,
        get_hash_from_file_and_data_eq _ _ hlen₂, hmis]

/-- Witness for C6: the empty file as the short file, and a 16-byte
all-zeros file (matching digest over the empty payload, which then fails to
deserialize) as the exactly-16-byte file, under the concrete test
instances. -/
theorem C6_witness :
    load_bin testHash testSer testDeser 0 false (some []) =
      some (Except.error ConfigError.CorruptedHashSector, some []) ∧
    load_bin testHash testSer testDeser 0 true (some []) =
      some (Except.ok 0, some (record testHash (testSer 0))) ∧
    load_bin testHash testSer testDeser 0 false
        (some (List.replicate 16 0)) =
      (if (List.replicate 16 0).take HASH_BYTE_LENGTH =
          u128ToLeBytes (testHash ((List.replicate 16 0).drop
            HASH_BYTE_LENGTH)) then
        match testDeser ((List.replicate 16 0).drop HASH_BYTE_LENGTH) with
        | some config => some (Except.ok config, some (List.replicate 16 0))
        | none => some (Except.error ConfigError.Bincode,
            some (List.replicate 16 0))
      else some (Except.error ConfigError.HashMismatch,
        some (List.replicate 16 0))) :=
  C6_short_file_corrupted_hash_sector testHash testSer testDeser 0
    [] (List.replicate 16 0) (by decide) (by decide)

/-- Counterexample to claim C7 as stated: on the empty file (shorter than
16 bytes), `load_bin_skip_check` with `reset_conf_on_err = true` does not
fail at all — it resets the file to a framed default record and returns
`Ok(default)`. -/
theorem C7_counterexample :
    (([] : List Nat)).length < HASH_BYTE_LENGTH ∧
    load_bin_skip_check testHash testSer testDeser 0 true (some []) =
      some (Except.ok 0, some (record testHash (testSer 0))) :=
  ⟨by decide, by rfl⟩

/-- Claim C7 as amended: for every file shorter than 16 bytes,
`load_bin_skip_check` with `reset_conf_on_err = false` fails with the
corrupted-hash-sector error; with `reset_conf_on_err = true` it overwrites
the file with a freshly framed default record and returns the default. -/
theorem C7_skip_check_short_file (hash : List Nat → Nat)
    (ser : T → List Nat) (deser : List Nat → Option T) (default : T)
    (data : List Nat) (hshort : data.length < HASH_BYTE_LENGTH) :
    load_bin_skip_check hash ser deser default false (some data) =
      some (Except.error ConfigError.CorruptedHashSector, some data) ∧
    load_bin_skip_check hash ser deser default true (some data) =
      some (Except.ok default, some (record hash (ser default))) := by
  constructor
  · simp [load_bin_skip_check, load_bin_internal, hshort]
  · simp [load_bin_skip_check, load_bin_internal, hshort,
      save_default_result_eq]

/-- Witness for the amended C7 at the empty file with the concrete test
instances. -/
theorem C7_witness :
    load_bin_skip_check testHash testSer testDeser 0 false (some []) =
      some (Except.error ConfigError.CorruptedHashSector, some []) ∧
    load_bin_skip_check testHash testSer testDeser 0 true (some []) =
      some (Except.ok 0, some (record testHash (testSer 0))) :=
  C7_skip_check_short_file testHash testSer testDeser 0 [] (by decide)

/-- Claim C8: on a file of at least 16 bytes whose stored digest does not
match the recomputed digest of its payload, `load_bin_skip_check` skips
verification and, whenever the bytes from offset 16 onward deserialize into
`T`, returns that value without modifying the file — for either value of
`reset_conf_on_err`. -/
theorem C8_skip_check_reads_mismatched_record (hash : List Nat → Nat)
    (ser : T → List Nat) (deser : List Nat → Option T) (default : T)
    (reset_conf_on_err : Bool) (data : List Nat) (c : T)
    (hlen : HASH_BYTE_LENGTH ≤ data.length)
    (hmis : data.take HASH_BYTE_LENGTH ≠
      u128ToLeBytes (hash (data.drop HASH_BYTE_LENGTH)))
    (hdeser : deser (data.drop HASH_BYTE_LENGTH) = some c) :
    load_bin_skip_check hash ser deser default reset_conf_on_err
        (some data) = some (Except.ok c, some data) := by
  simp [load_bin_skip_check, load_bin_internal, Nat.not_lt.mpr hlen,
    bincode_step, slice_from, hlen, hdeser]

/-- Witness for C8: a 17-byte file of sixteen ones followed by the payload
byte `7` (stored digest does not match), read with the concrete test
instances. -/
theorem C8_witness :
    (List.replicate 16 1 ++ [7] : List Nat).take HASH_BYTE_LENGTH ≠
      u128ToLeBytes (testHash ((List.replicate 16 1 ++ [7]).drop
        HASH_BYTE_LENGTH)) ∧
    load_bin_skip_check testHash testSer testDeser 0 false
        (some (List.replicate 16 1 ++ [7])) =
      some (Except.ok 7, some (List.replicate 16 1 ++ [7])) :=
  ⟨by decide,
    C8_skip_check_reads_mismatched_record testHash testSer testDeser 0 false
      (List.replicate 16 1 ++ [7]) 7 (by decide) (by decide) (by decide)⟩

/-- Claim C9: when no file exists at the resolved path, `load_bin` writes a
freshly framed default record and returns the default (for either value of
`reset_conf_on_err`); provided deserialization inverts serialization on the
default value, the written record is well-formed — at least 16 bytes long,
stored digest matching the recomputed digest, payload deserializing to the
default — and a subsequent `load_bin` returns the same default leaving the
file unchanged, without entering any recovery branch. -/
theorem C9_bootstrap_default_record (hash : List Nat → Nat)
    (ser : T → List Nat) (deser : List Nat → Option T) (default : T)
    (reset₁ reset₂ : Bool) (hdeser : deser (ser default) = some default) :
    load_bin hash ser deser default reset₁ none =
      some (Except.ok default, some (record hash (ser default))) ∧
    HASH_BYTE_LENGTH ≤ (record hash (ser default)).length ∧
    (record hash (ser default)).take HASH_BYTE_LENGTH =
      u128ToLeBytes (hash ((record hash (ser default)).drop
        HASH_BYTE_LENGTH)) ∧
    deser ((record hash (ser default)).drop HASH_BYTE_LENGTH) =
      some default ∧
    load_bin hash ser deser default reset₂
        (some (record hash (ser default))) =
      some (Except.ok default, some (record hash (ser default))) := by
  have hlen : HASH_BYTE_LENGTH ≤ (record hash (ser default)).length := by
    rw [record_length]; omega
  refine ⟨by simp [load_bin, load_bin_internal, save_default_result_eq],
    hlen, ?_, ?_, ?_⟩
  · rw [record_drop, record_take]
  · rw [record_drop]; exact hdeser
  · simp [load_bin, load_bin_internal, Nat.not_lt.mpr hlen,
      get_hash_from_file_and_data_eq _ _ hlen, record_take, record_drop,
      bincode_step, slice_from, hlen, hdeser]

/-- Witness for C9 with the concrete test instances and default `0`. -/
theorem C9_witness :
    load_bin testHash testSer testDeser 0 false none =
      some (Except.ok 0, some (record testHash (testSer 0))) ∧
    HASH_BYTE_LENGTH ≤ (record testHash (testSer 0)).length ∧
    (record testHash (testSer 0)).take HASH_BYTE_LENGTH =
      u128ToLeBytes (testHash ((record testHash (testSer 0)).drop
        HASH_BYTE_LENGTH)) ∧
    testDeser ((record testHash (testSer 0)).drop HASH_BYTE_LENGTH) =
      some 0 ∧
    load_bin testHash testSer testDeser 0 true
        (some (record testHash (testSer 0))) =
      some (Except.ok 0, some (record testHash (testSer 0))) :=
  C9_bootstrap_default_record testHash testSer testDeser 0 false true
    (by decide)

/-- `bincode_step` never panics once the size check has passed. -/
theorem bincode_step_isSome (hash : List Nat → Nat) (ser : T → List Nat)
    (deser : List Nat → Option T) (default : T) (reset_conf_on_err : Bool)
    (data : List Nat) (hlen : HASH_BYTE_LENGTH ≤ data.length) :
    (bincode_step hash ser deser default reset_conf_on_err data).isSome := by
  simp only [bincode_step, slice_from, if_pos hlen]
  cases deser (data.drop HASH_BYTE_LENGTH) <;>
    cases reset_conf_on_err <;>
    simp [save_default_result_eq]

/-- Claim C10: no file content can make the binary path panic.  For any
file, `load_bin_internal` produces a result (its slicings are guarded by the
size check); once `data.len ≥ 16` the slicings in
`get_hash_from_file_and_data` are in bounds and its 16-byte digest assert
holds (the little-endian encoding of a u128 is always 16 bytes); and the
`clone_from_slice` in `prepare_serialized_data` (hence `store_bin`) never
fails. -/
theorem C10_no_panic (hash : List Nat → Nat) (ser : T → List Nat)
    (deser : List Nat → Option T) (default : T)
    (reset_conf_on_err skip_hash_check : Bool) (file : Option (List Nat))
    (data payload : List Nat) (hlen : HASH_BYTE_LENGTH ≤ data.length) :
    (load_bin_internal hash ser deser default reset_conf_on_err
      skip_hash_check file).isSome ∧
    (get_hash_from_file_and_data hash data).isSome ∧
    (u128ToLeBytes (hash payload)).length = HASH_BYTE_LENGTH ∧
    (prepare_serialized_data hash payload).isSome ∧
    (store_bin hash ser default).isSome := by
  refine ⟨?_, ?_, u128ToLeBytes_length _, ?_, ?_⟩
  · cases file with
    | none => simp [load_bin_internal, save_default_result_eq]
    | some d =>
      by_cases hd : d.length < HASH_BYTE_LENGTH
      · cases reset_conf_on_err <;>
          simp [load_bin_internal, hd, save_default_result_eq]
      · have hd' : HASH_BYTE_LENGTH ≤ d.length := Nat.not_lt.mp hd
        cases skip_hash_check with
        | true =>
            simp only [load_bin_internal, if_neg hd]
            simpa using bincode_step_isSome hash ser deser default
              reset_conf_on_err d hd'
        | false =>
            simp only [load_bin_internal, if_neg hd,
              get_hash_from_file_and_data_eq _ _ hd']
            by_cases hmis : d.take HASH_BYTE_LENGTH =
                u128ToLeBytes (hash (d.drop HASH_BYTE_LENGTH))
            · simpa [hmis] using bincode_step_isSome hash ser deser default
                reset_conf_on_err d hd'
            · cases reset_conf_on_err <;>
                simp [hmis, save_default_result_eq]
  · simp [get_hash_from_file_and_data_eq _ _ hlen]
  · simp [prepare_serialized_data_eq]
  · simp [store_bin, prepare_serialized_data_eq]

/-- Witness for C10 with the concrete test instances, an arbitrary 16-byte
file and payload. -/
theorem C10_witness :
    (load_bin_internal testHash testSer testDeser 0 false false
      (some [1, 2, 3])).isSome ∧
    (get_hash_from_file_and_data testHash (List.replicate 16 1)).isSome ∧
    (u128ToLeBytes (testHash [5])).length = HASH_BYTE_LENGTH ∧
    (prepare_serialized_data testHash [5]).isSome ∧
    (store_bin testHash testSer 0).isSome :=
  C10_no_panic testHash testSer testDeser 0 false false (some [1, 2, 3])
    (List.replicate 16 1) [5] (by decide)

end Binconf
